import Mathlib

/-!
Verification of the smartbroker repository scripts.

The development shallowly embeds the string-processing logic of
`company_info.py` (the section extractor and the bounded retry loop in
`get_company_website` / `get_company_owner` / `get_company_products`, and the
gating logic of `main`), of `perplexity_server.py` (`search_web`), and of
`py/smartbroker_script.py` (`send_anthropic_message`, `search_perplexity`).

Python strings are modelled as Lean `String` (a wrapper around `List Char`);
the Python primitives used by the code — substring test `in`,
`split(sep, 1)`, `replace(old, "", 1)` and `strip()` — are defined below on
`List Char`.  Remote calls are abstracted as oracles: a response text per
attempt for the retry loops, an `Except` value (exception or parsed
response) for `search_web`, and a three-way `RequestOutcome` for the two
wrappers whose except handlers distinguish whether the `response` local was
bound when the exception struck.
-/

/-- Python whitespace characters recognised by `str.strip()` (ASCII part):
space, tab, newline, carriage return, vertical tab, form feed. -/
def isPySpace (c : Char) : Bool :=
  c == ' ' || c == '\t' || c == '\n' || c == '\r' ||
  c == Char.ofNat 11 || c == Char.ofNat 12

/-- `str.strip()` on a list of characters: drop whitespace from both ends. -/
def pyStripL (s : List Char) : List Char :=
  ((s.dropWhile isPySpace).reverse.dropWhile isPySpace).reverse

/-- `str.strip()` on a string. -/
def pyStrip (s : String) : String :=
  ⟨pyStripL s.toList⟩

/-- `pat` is a prefix of `s` (Boolean, by decidable character equality). -/
def startsWithL : List Char → List Char → Bool
  | [], _ => true
  | _ :: _, [] => false
  | p :: ps, c :: cs => if p = c then startsWithL ps cs else false

/-- Split at the first occurrence of `pat`: `some (before, after)` when `pat`
occurs in `s` (`s = before ++ pat ++ after`, first occurrence), else `none`.
This is the engine behind Python `pat in s` and `s.split(pat, 1)`. -/
def splitOnceL (pat : List Char) : List Char → Option (List Char × List Char)
  | [] => if pat.isEmpty then some ([], []) else none
  | c :: rest =>
    if startsWithL pat (c :: rest) then some ([], (c :: rest).drop pat.length)
    else
      match splitOnceL pat rest with
      | some (pre, post) => some (c :: pre, post)
      | none => none

/-- Python `sub in s`. -/
def pyContains (s sub : String) : Bool :=
  (splitOnceL sub.toList s.toList).isSome

/-- Python `s.split(sep, 1)`: a list of one element (no occurrence) or two. -/
def pySplit1 (s sep : String) : List String :=
  match splitOnceL sep.toList s.toList with
  | some (pre, post) => [⟨pre⟩, ⟨post⟩]
  | none => [s]

/-- Python `s.replace(old, "", 1)`: delete the first occurrence of `pat`. -/
def removeOnceL (pat s : List Char) : List Char :=
  match splitOnceL pat s with
  | some (pre, post) => pre ++ post
  | none => s

/-- Python `s.replace(old, "", 1)` on strings. -/
def pyRemoveOnce (s pat : String) : String :=
  ⟨removeOnceL pat.toList s.toList⟩

/-- The three sections extracted from a model response by
`get_company_website` (company_info.py lines 96-122); the identical blocks in
`get_company_owner` and `get_company_products` produce the same structure. -/
structure Extracted where
  raw_results : String
  claude_analysis : String
  final_answer : String
deriving DecidableEq

/-- The section extractor of company_info.py (lines 96-122): if the response
contains both markers, split on the first `"CLAUDE_ANALYSIS:"`; the part
before it, with the first `"RAW_SEARCH_RESULTS:"` occurrence deleted and
stripped, is `raw_results`; the part after it is split on the first blank
line into `claude_analysis` and `final_answer` (both stripped), with
`final_answer = "Unknown"` when no blank line exists.  If either marker is
missing, the whole stripped response is the `final_answer`. -/
def extractSections (full_response : String) : Extracted :=
  if pyContains full_response "RAW_SEARCH_RESULTS:" &&
     pyContains full_response "CLAUDE_ANALYSIS:" then
    let parts := pySplit1 full_response "CLAUDE_ANALYSIS:"
    let raw_results := pyStrip (pyRemoveOnce (parts.getD 0 "") "RAW_SEARCH_RESULTS:")
    let tail := parts.getD 1 ""
    if pyContains tail "\n\n" then
      let analysis_parts := pySplit1 tail "\n\n"
      let claude_analysis := pyStrip (analysis_parts.getD 0 "")
      let final_answer :=
        if analysis_parts.length > 1 then pyStrip (analysis_parts.getD 1 "")
        else "Unknown"
      ⟨raw_results, claude_analysis, final_answer⟩
    else
      ⟨raw_results, pyStrip tail, "Unknown"⟩
  else
    ⟨"", "", pyStrip full_response⟩

/-- The determination a lookup computes from one raw model response: the
response is stripped on receipt (line 89), parsed, and the extracted
`final_answer` is stripped again (line 136). -/
def determinationOf (s : String) : String :=
  pyStrip (extractSections (pyStrip s)).final_answer

/-- The retry loop shared by `get_company_website`, `get_company_owner` and
`get_company_products` (company_info.py lines 66-143): `responses attempt` is
the model response to the request issued at that attempt index.  Returns the
final value together with the number of requests issued.  When the
determination differs from `"NOT_EXACT_MATCH"` it is returned at once;
otherwise the next attempt runs, and when the fuel (remaining attempts) is
exhausted the result is `"Unknown"`. -/
def attemptLoop (responses : Nat → String) : Nat → Nat → String × Nat
  | attempt, 0 => ("Unknown", attempt)
  | attempt, fuel + 1 =>
    let website := determinationOf (responses attempt)
    if website = "NOT_EXACT_MATCH" then attemptLoop responses (attempt + 1) fuel
    else (website, attempt + 1)

/-- `get_company_website` (company_info.py lines 41-143): up to
`max_attempts = 3` requests. -/
def get_company_website (responses : Nat → String) : String × Nat :=
  attemptLoop responses 0 3

/-- `get_company_owner` (company_info.py lines 145-248): identical loop. -/
def get_company_owner (responses : Nat → String) : String × Nat :=
  attemptLoop responses 0 3

/-- `get_company_products` (company_info.py lines 250-353): identical loop. -/
def get_company_products (responses : Nat → String) : String × Nat :=
  attemptLoop responses 0 3

/-- The results mapping built by `main` (company_info.py lines 373-396). -/
structure CompanyResults where
  company_name : String
  website : String
  owner : String
  products_services : String
  exact_match : Bool
deriving DecidableEq

/-- The information-gathering flow of `main` (company_info.py lines 363-396):
look up the website; if it is `"Unknown"` build the minimal mapping without
calling the owner or products lookups, else run both and record their
results.  The two `Nat`s count the requests issued by the owner and products
lookups (0 when a lookup is never called). -/
def mainFlow (company_name : String)
    (webResponses ownerResponses productResponses : Nat → String) :
    CompanyResults × Nat × Nat :=
  let website := (get_company_website webResponses).1
  if website = "Unknown" then
    (⟨company_name, "Unknown", "Unknown", "Unknown", false⟩, 0, 0)
  else
    let ownerRun := get_company_owner ownerResponses
    let productsRun := get_company_products productResponses
    (⟨company_name, website, ownerRun.1, productsRun.1, true⟩,
      ownerRun.2, productsRun.2)

/-- A parsed chat-completion response from the Perplexity API, as consumed by
`search_web` (perplexity_server.py): the completion content and the optional
`citations` attribute (`none` models an absent attribute). -/
structure PerplexityResponse where
  content : String
  citations : Option (List String)
deriving DecidableEq

/-- The model whitelist of `search_web` (perplexity_server.py line 28). -/
def valid_models : List String :=
  ["sonar-pro", "sonar-small", "sonar-medium", "codellama-70b", "mistral-7b"]

/-- Python `str.lower()` (ASCII case folding, as used on exception text). -/
def pyLower (s : String) : String :=
  String.map Char.toLower s

/-- The citation list formatting of `search_web` (perplexity_server.py lines
66-67): `enumerate(citations, 1)` rendered as numbered lines. -/
def formatCitations : List String → Nat → String
  | [], _ => ""
  | c :: rest, i => Nat.repr i ++ ". " ++ c ++ "\n" ++ formatCitations rest (i + 1)

/-- `search_web` (perplexity_server.py lines 14-87).  `call` is the outcome
of the one chat-completion request: a parsed response, or an exception whose
message is the `error` string.  Returns the result string paired with the
model identifier actually used for the request (the argument when it is in
`valid_models`, else `"sonar-pro"`). -/
def search_web (query : String) (model : String)
    (call : Except String PerplexityResponse) : String × String :=
  let usedModel := if valid_models.contains model then model else "sonar-pro"
  match call with
  | Except.ok resp =>
    let result := resp.content
    let result :=
      match resp.citations with
      | some (c :: cs) => result ++ "\n\nSources:\n" ++ formatCitations (c :: cs) 1
      | _ => result
    let result := result ++ "\n\n(Results from Perplexity " ++ usedModel ++ ")"
    (result, usedModel)
  | Except.error e =>
    let msg :=
      if pyContains (pyLower e) "authentication" then
        "Error: Authentication failed. Please check the API key."
      else if pyContains (pyLower e) "rate limit" then
        "Error: Rate limit exceeded. Please try again later."
      else if pyContains (pyLower e) "timeout" then
        "Error: The request timed out. Please try again."
      else
        "Error searching with Perplexity: " ++ e
    (msg, usedModel)

/-- Outcome of the try-block body of `send_anthropic_message` and
`search_perplexity` (smartbroker_script.py): either `requests.post` itself
raised (so the local variable `response` was never bound), or the POST
returned and a later step raised (`raise_for_status`, JSON extraction — the
`response` local is bound), or the completion text was extracted. -/
inductive RequestOutcome where
  | postRaised (e : String)
  | respRaised (e : String)
  | success (text : String)
deriving DecidableEq

/-- `send_anthropic_message` (smartbroker_script.py lines 67-90).  The except
handler references the local `response` via `hasattr(response, "text")`
(line 88): when the exception came after `response` was bound it returns the
fixed error string, but when `requests.post` itself raised that reference
hits the unbound local and an `UnboundLocalError` propagates out of the
function (`Except.error` models the propagated exception, `Except.ok` a
normal return). -/
def send_anthropic_message (call : RequestOutcome) : Except String String :=
  match call with
  | RequestOutcome.success text => Except.ok text
  | RequestOutcome.respRaised _ => Except.ok "Error: Could not get a response from Claude."
  | RequestOutcome.postRaised _ => Except.error "UnboundLocalError"

/-- `search_perplexity` (smartbroker_script.py lines 92-113): same shape as
`send_anthropic_message`, including the unbound-local reference
`hasattr(response, "text")` in the except handler (line 111): an exception
after `response` is bound yields the fixed error string, a failure of the
POST itself propagates an `UnboundLocalError`. -/
def search_perplexity (call : RequestOutcome) : Except String String :=
  match call with
  | RequestOutcome.success content => Except.ok content
  | RequestOutcome.respRaised _ => Except.ok "Error: Could not get search results."
  | RequestOutcome.postRaised _ => Except.error "UnboundLocalError"

/-- Modelled from the spec, its parsing rule, for comparison with the code:
"split the text after the raw-results marker and before the analysis marker
to obtain the raw-results section (trimmed)" — the substring strictly after
the first `"RAW_SEARCH_RESULTS:"` and strictly before the following
`"CLAUDE_ANALYSIS:"`, stripped. -/
def specRawResultsSection (s : String) : String :=
  match splitOnceL "RAW_SEARCH_RESULTS:".toList s.toList with
  | some (_, afterRaw) =>
    match splitOnceL "CLAUDE_ANALYSIS:".toList afterRaw with
    | some (between, _) => pyStrip ⟨between⟩
    | none => pyStrip ⟨afterRaw⟩
  | none => ""

theorem toList_mk (l : List Char) : String.toList ⟨l⟩ = l := rfl

theorem startsWithL_append : ∀ (p s : List Char), startsWithL p s = true → s = p ++ s.drop p.length := by
  intro p
  induction p with
  | nil => intro s _; simp
  | cons x xs ih =>
    intro s h
    cases s with
    | nil => simp [startsWithL] at h
    | cons c cs =>
      rw [startsWithL] at h
      by_cases hx : x = c
      · subst hx
        rw [if_pos rfl] at h
        have h2 := ih cs h
        simp only [List.cons_append, List.length_cons, List.drop_succ_cons, List.cons.injEq,
          true_and]
        exact h2
      · rw [if_neg hx] at h
        exact absurd h (by simp)

theorem splitOnceL_append (pat : List Char) :
    ∀ (s pre post : List Char), splitOnceL pat s = some (pre, post) → s = pre ++ pat ++ post := by
  intro s
  induction s with
  | nil =>
    intro pre post h
    rw [splitOnceL] at h
    split at h
    · rename_i hemp
      have hpat : pat = [] := by simpa [List.isEmpty_iff] using hemp
      simp only [Option.some.injEq, Prod.mk.injEq] at h
      simp [hpat, ← h.1, ← h.2]
    · exact absurd h (by simp)
  | cons c cs ih =>
    intro pre post h
    rw [splitOnceL] at h
    split at h
    · rename_i hsw
      simp only [Option.some.injEq, Prod.mk.injEq] at h
      rw [← h.1, ← h.2]
      simpa using startsWithL_append pat (c :: cs) hsw
    · rename_i hsw
      cases hm : splitOnceL pat cs with
      | none => rw [hm] at h; simp at h
      | some pq =>
        obtain ⟨p, q⟩ := pq
        rw [hm] at h
        simp only [Option.some.injEq, Prod.mk.injEq] at h
        rw [← h.1, ← h.2]
        have := ih p q hm
        simp [this]

theorem extractSections_no_marker (s : String)
    (h : (pyContains s "RAW_SEARCH_RESULTS:" && pyContains s "CLAUDE_ANALYSIS:") = false) :
    extractSections s = ⟨"", "", pyStrip s⟩ := by
  simp only [extractSections, h, Bool.false_eq_true, if_false]

theorem extractSections_blank (s : String) (pre post a b : List Char)
    (hraw : pyContains s "RAW_SEARCH_RESULTS:" = true)
    (hsplit : splitOnceL "CLAUDE_ANALYSIS:".toList s.toList = some (pre, post))
    (hblank : splitOnceL "\n\n".toList post = some (a, b)) :
    extractSections s =
      ⟨pyStrip ⟨removeOnceL "RAW_SEARCH_RESULTS:".toList pre⟩, pyStrip ⟨a⟩, pyStrip ⟨b⟩⟩ := by
  have hana : pyContains s "CLAUDE_ANALYSIS:" = true := by
    simp only [pyContains, hsplit, Option.isSome_some]
  have htail : pyContains ⟨post⟩ "\n\n" = true := by
    simp only [pyContains, toList_mk, hblank, Option.isSome_some]
  simp only [extractSections, hraw, hana, Bool.and_self, if_true, pySplit1, hsplit, htail,
    toList_mk, hblank, List.getD_cons_zero, List.getD_cons_succ, List.length_cons,
    pyRemoveOnce, pyStrip]
  simp

theorem extractSections_no_blank (s : String) (pre post : List Char)
    (hraw : pyContains s "RAW_SEARCH_RESULTS:" = true)
    (hsplit : splitOnceL "CLAUDE_ANALYSIS:".toList s.toList = some (pre, post))
    (hblank : splitOnceL "\n\n".toList post = none) :
    extractSections s =
      ⟨pyStrip ⟨removeOnceL "RAW_SEARCH_RESULTS:".toList pre⟩, pyStrip ⟨post⟩, "Unknown"⟩ := by
  have hana : pyContains s "CLAUDE_ANALYSIS:" = true := by
    simp only [pyContains, hsplit, Option.isSome_some]
  have htail : pyContains ⟨post⟩ "\n\n" = false := by
    simp only [pyContains, toList_mk, hblank, Option.isSome_none]
  simp only [extractSections, hraw, hana, Bool.and_self, if_true, pySplit1, hsplit, htail,
    toList_mk, List.getD_cons_zero, List.getD_cons_succ, Bool.false_eq_true, if_false,
    pyRemoveOnce, pyStrip]

theorem attemptLoop_ne_sentinel (responses : Nat → String) :
    ∀ (fuel attempt : Nat), (attemptLoop responses attempt fuel).1 ≠ "NOT_EXACT_MATCH" := by
  intro fuel
  induction fuel with
  | zero => intro attempt; simp only [attemptLoop]; decide
  | succ fuel ih =>
    intro attempt
    simp only [attemptLoop]
    by_cases h : determinationOf (responses attempt) = "NOT_EXACT_MATCH"
    · simp only [h, if_true]
      exact ih (attempt + 1)
    · simp only [h, if_false]
      exact h

theorem attemptLoop_issues_request (responses : Nat → String) :
    ∀ (fuel attempt : Nat), attempt + 1 ≤ (attemptLoop responses attempt (fuel + 1)).2 := by
  intro fuel
  induction fuel with
  | zero =>
    intro attempt
    simp only [attemptLoop]
    by_cases h : determinationOf (responses attempt) = "NOT_EXACT_MATCH" <;> simp [h]
  | succ fuel ih =>
    intro attempt
    simp only [attemptLoop]
    by_cases h : determinationOf (responses attempt) = "NOT_EXACT_MATCH"
    · have := ih (attempt + 1)
      simp only [h, if_true]
      simp only [attemptLoop] at this ⊢
      omega
    · simp [h]

/-- C1: when every attempt yields the ambiguous sentinel, each attempt below
the maximum issues exactly one more request and the lookup finally returns
`"Unknown"` after 3 requests; when attempt `k` is the first non-ambiguous
one the lookup stops there with `k + 1` requests; the returned value is never
`"NOT_EXACT_MATCH"`; and `get_company_owner` and `get_company_products` are
the same loop as `get_company_website`. -/
theorem get_company_website_ambiguous_retry :
    (∀ responses : Nat → String,
        (∀ i, i < 3 → determinationOf (responses i) = "NOT_EXACT_MATCH") →
        get_company_website responses = ("Unknown", 3)) ∧
    (∀ (responses : Nat → String) (k : Nat), k < 3 →
        (∀ j, j < k → determinationOf (responses j) = "NOT_EXACT_MATCH") →
        determinationOf (responses k) ≠ "NOT_EXACT_MATCH" →
        get_company_website responses = (determinationOf (responses k), k + 1)) ∧
    (∀ responses : Nat → String,
        (get_company_website responses).1 ≠ "NOT_EXACT_MATCH") ∧
    (∀ responses : Nat → String,
        get_company_owner responses = get_company_website responses) ∧
    (∀ responses : Nat → String,
        get_company_products responses = get_company_website responses) := by
  refine ⟨?_, ?_, ?_, fun _ => rfl, fun _ => rfl⟩
  · intro responses h
    simp [get_company_website, attemptLoop, h 0 (by omega), h 1 (by omega), h 2 (by omega)]
  · intro responses k hk h1 h2
    interval_cases k
    · simp [get_company_website, attemptLoop, h2]
    · simp [get_company_website, attemptLoop, h1 0 (by omega), h2]
    · simp [get_company_website, attemptLoop, h1 0 (by omega), h1 1 (by omega), h2]
  · intro responses
    exact attemptLoop_ne_sentinel responses 3 0

/-- Witness for C1 at concrete response sequences: three ambiguous responses
give `("Unknown", 3)`; an immediately concrete response is returned after one
request; the result of the all-ambiguous run differs from the sentinel. -/
theorem get_company_website_ambiguous_retry_witness :
    get_company_website (fun _ => "NOT_EXACT_MATCH") = ("Unknown", 3) ∧
    get_company_website (fun _ => "acme.com") = ("acme.com", 1) ∧
    (get_company_website (fun _ => "NOT_EXACT_MATCH")).1 ≠ "NOT_EXACT_MATCH" := by
  refine ⟨?_, ?_, ?_⟩
  · exact get_company_website_ambiguous_retry.1 _ (fun i _ => by decide)
  · have h := get_company_website_ambiguous_retry.2.1 (fun _ => "acme.com") 0 (by omega)
      (fun j hj => absurd hj (by omega)) (by decide)
    rw [h]; decide
  · exact get_company_website_ambiguous_retry.2.2.1 _

/-- C2 (amended): when the response contains both markers and the text after
the first analysis marker contains a blank-line boundary, the determination
is the stripped text after that first boundary, the analysis is the stripped
text between the marker and the boundary, and the raw-results section is the
text before the analysis marker with the first occurrence of the raw-results
marker deleted, stripped. -/
theorem extract_both_markers_with_blank_line (s : String) (pre post a b : List Char)
    (hraw : pyContains s "RAW_SEARCH_RESULTS:" = true)
    (hsplit : splitOnceL "CLAUDE_ANALYSIS:".toList s.toList = some (pre, post))
    (hblank : splitOnceL "\n\n".toList post = some (a, b)) :
    extractSections s =
      ⟨pyStrip ⟨removeOnceL "RAW_SEARCH_RESULTS:".toList pre⟩, pyStrip ⟨a⟩, pyStrip ⟨b⟩⟩ :=
  extractSections_blank s pre post a b hraw hsplit hblank

/-- Witness for C2 at the scenario string given by the spec. -/
theorem extract_both_markers_with_blank_line_witness :
    extractSections "RAW_SEARCH_RESULTS:\nfoo\nCLAUDE_ANALYSIS:\nbar\n\nacme.com" =
      ⟨"foo", "bar", "acme.com"⟩ := by
  have h := extract_both_markers_with_blank_line
    "RAW_SEARCH_RESULTS:\nfoo\nCLAUDE_ANALYSIS:\nbar\n\nacme.com"
    "RAW_SEARCH_RESULTS:\nfoo\n".toList "\nbar\n\nacme.com".toList
    "\nbar".toList "acme.com".toList (by decide) (by decide) (by decide)
  rw [h]; decide

/-- Counterexample for C2 as stated: on a response with text preceding the
raw-results marker, the extractor keeps that text in its raw-results output,
while the raw-results section of the spec (text strictly after the raw-results
marker and before the analysis marker) drops it — even though the response
contains both markers and a blank-line boundary after the analysis marker. -/
theorem extract_both_markers_claimed_raw_fails :
    pyContains "yy RAW_SEARCH_RESULTS:\nfoo\nCLAUDE_ANALYSIS:\nbar\n\nacme.com"
      "RAW_SEARCH_RESULTS:" = true ∧
    pyContains "yy RAW_SEARCH_RESULTS:\nfoo\nCLAUDE_ANALYSIS:\nbar\n\nacme.com"
      "CLAUDE_ANALYSIS:" = true ∧
    pyContains ((pySplit1 "yy RAW_SEARCH_RESULTS:\nfoo\nCLAUDE_ANALYSIS:\nbar\n\nacme.com"
      "CLAUDE_ANALYSIS:").getD 1 "") "\n\n" = true ∧
    (extractSections "yy RAW_SEARCH_RESULTS:\nfoo\nCLAUDE_ANALYSIS:\nbar\n\nacme.com").raw_results ≠
      specRawResultsSection "yy RAW_SEARCH_RESULTS:\nfoo\nCLAUDE_ANALYSIS:\nbar\n\nacme.com" := by
  refine ⟨by decide, by decide, by decide, by decide⟩

/-- C3: if either marker is missing the whole stripped response becomes the
determination and the raw-results and analysis sections are empty. -/
theorem extract_missing_marker (s : String)
    (h : pyContains s "RAW_SEARCH_RESULTS:" = false ∨ pyContains s "CLAUDE_ANALYSIS:" = false) :
    extractSections s = ⟨"", "", pyStrip s⟩ := by
  apply extractSections_no_marker
  rcases h with h | h <;> simp [h]

/-- Witness for C3 at the scenario string of the spec, `"Just some text"`. -/
theorem extract_missing_marker_witness :
    extractSections "Just some text" = ⟨"", "", "Just some text"⟩ := by
  have h := extract_missing_marker "Just some text" (Or.inl (by decide))
  rw [h]; decide

/-- C4 (amended): for a response containing both markers, the raw-results
output is the text before the first analysis marker with the first
occurrence of the raw-results marker deleted, stripped — not the text
strictly after the raw-results marker. -/
theorem extract_raw_results_replace (s : String) (pre post : List Char)
    (hraw : pyContains s "RAW_SEARCH_RESULTS:" = true)
    (hsplit : splitOnceL "CLAUDE_ANALYSIS:".toList s.toList = some (pre, post)) :
    (extractSections s).raw_results = pyStrip ⟨removeOnceL "RAW_SEARCH_RESULTS:".toList pre⟩ := by
  cases hb : splitOnceL "\n\n".toList post with
  | none => rw [extractSections_no_blank s pre post hraw hsplit hb]
  | some ab =>
    obtain ⟨a, b⟩ := ab
    rw [extractSections_blank s pre post a b hraw hsplit hb]

/-- Witness for C4 (amended) on a response whose raw-results marker is
preceded by extra text, which the extractor keeps. -/
theorem extract_raw_results_replace_witness :
    (extractSections "xRAW_SEARCH_RESULTS:\nfoo\nCLAUDE_ANALYSIS:\nbar\n\nacme.com").raw_results =
      "x\nfoo" := by
  have h := extract_raw_results_replace
    "xRAW_SEARCH_RESULTS:\nfoo\nCLAUDE_ANALYSIS:\nbar\n\nacme.com"
    "xRAW_SEARCH_RESULTS:\nfoo\n".toList "\nbar\n\nacme.com".toList (by decide) (by decide)
  rw [h]; decide

/-- Counterexample for C4 as stated: on a response with one character before
the raw-results marker, the raw-results output of the extractor keeps that
character, while the claimed rule (text strictly after the raw-results
marker and strictly before the analysis marker, trimmed) drops it. -/
theorem extract_raw_results_claimed_rule_fails :
    pyContains "xRAW_SEARCH_RESULTS:\nfoo\nCLAUDE_ANALYSIS:\nbar\n\nacme.com"
      "RAW_SEARCH_RESULTS:" = true ∧
    pyContains "xRAW_SEARCH_RESULTS:\nfoo\nCLAUDE_ANALYSIS:\nbar\n\nacme.com"
      "CLAUDE_ANALYSIS:" = true ∧
    (extractSections "xRAW_SEARCH_RESULTS:\nfoo\nCLAUDE_ANALYSIS:\nbar\n\nacme.com").raw_results ≠
      specRawResultsSection "xRAW_SEARCH_RESULTS:\nfoo\nCLAUDE_ANALYSIS:\nbar\n\nacme.com" := by
  refine ⟨by decide, by decide, by decide⟩

/-- C5: with both markers present but no blank-line boundary after the
analysis marker, the entire remainder (stripped) is the analysis section and
the determination defaults to `"Unknown"`. -/
theorem extract_no_blank_line_defaults_unknown (s : String) (pre post : List Char)
    (hraw : pyContains s "RAW_SEARCH_RESULTS:" = true)
    (hsplit : splitOnceL "CLAUDE_ANALYSIS:".toList s.toList = some (pre, post))
    (hblank : splitOnceL "\n\n".toList post = none) :
    (extractSections s).claude_analysis = pyStrip ⟨post⟩ ∧
    (extractSections s).final_answer = "Unknown" := by
  rw [extractSections_no_blank s pre post hraw hsplit hblank]
  exact ⟨rfl, rfl⟩

/-- Witness for C5 on a two-marker response with no blank line. -/
theorem extract_no_blank_line_defaults_unknown_witness :
    (extractSections "RAW_SEARCH_RESULTS:\nfoo\nCLAUDE_ANALYSIS:\nbar").claude_analysis = "bar" ∧
    (extractSections "RAW_SEARCH_RESULTS:\nfoo\nCLAUDE_ANALYSIS:\nbar").final_answer = "Unknown" := by
  have h := extract_no_blank_line_defaults_unknown
    "RAW_SEARCH_RESULTS:\nfoo\nCLAUDE_ANALYSIS:\nbar"
    "RAW_SEARCH_RESULTS:\nfoo\n".toList "\nbar".toList (by decide) (by decide) (by decide)
  refine ⟨?_, h.2⟩
  rw [h.1]; decide

/-- C6: the extractor is a total function of the response string and its
determination always degrades gracefully: it is either the `"Unknown"`
sentinel or the stripped text of a contiguous substring of the response (the
whole response when a marker is missing). -/
theorem extractSections_total (s : String) :
    (extractSections s).final_answer = "Unknown" ∨
    ∃ u t v : List Char, s.toList = u ++ t ++ v ∧
      (extractSections s).final_answer = pyStrip ⟨t⟩ := by
  by_cases h : (pyContains s "RAW_SEARCH_RESULTS:" && pyContains s "CLAUDE_ANALYSIS:") = true
  · have h2 : pyContains s "RAW_SEARCH_RESULTS:" = true ∧ pyContains s "CLAUDE_ANALYSIS:" = true := by
      simpa using h
    have hraw := h2.1
    have hana := h2.2
    simp only [pyContains] at hana
    obtain ⟨pq, hsplit⟩ := Option.isSome_iff_exists.mp hana
    obtain ⟨pre, post⟩ := pq
    have hs := splitOnceL_append _ _ _ _ hsplit
    cases hb : splitOnceL "\n\n".toList post with
    | none =>
      left
      rw [extractSections_no_blank s pre post hraw hsplit hb]
    | some ab =>
      obtain ⟨a, b⟩ := ab
      right
      have hpost := splitOnceL_append _ _ _ _ hb
      refine ⟨pre ++ "CLAUDE_ANALYSIS:".toList ++ a ++ "\n\n".toList, b, [], ?_, ?_⟩
      · rw [hs, hpost]; simp
      · rw [extractSections_blank s pre post a b hraw hsplit hb]
  · right
    refine ⟨[], s.toList, [], by simp, ?_⟩
    rw [extractSections_no_marker s (by simpa using h)]
    rfl

/-- C7: evaluation of the wrappers on each remote-failure path.  When
`requests.post` itself raises — the canonical network failure — the except
handlers of `send_anthropic_message` and `search_perplexity` hit the unbound
local `response` and propagate an `UnboundLocalError` instead of returning
their fixed error strings, contradicting the claim (and the evident intent
of the handlers, which end by returning those strings).  The remaining parts
of the claim hold: an exception raised after `response` is bound is replaced
by the fixed error string, and `search_web` (whose handler touches only the
exception text) returns one of its four error strings classified by failure
kind for every exception.  Each wrapper issues a single request, so no
network-failure retry occurs. -/
theorem remote_call_failure_paths :
    send_anthropic_message (RequestOutcome.postRaised "connection refused") =
        Except.error "UnboundLocalError" ∧
    search_perplexity (RequestOutcome.postRaised "connection refused") =
        Except.error "UnboundLocalError" ∧
    (∀ e : String,
        send_anthropic_message (RequestOutcome.respRaised e) =
          Except.ok "Error: Could not get a response from Claude.") ∧
    (∀ e : String,
        search_perplexity (RequestOutcome.respRaised e) =
          Except.ok "Error: Could not get search results.") ∧
    (∀ q m e : String,
        (search_web q m (Except.error e)).1 =
            "Error: Authentication failed. Please check the API key." ∨
        (search_web q m (Except.error e)).1 =
            "Error: Rate limit exceeded. Please try again later." ∨
        (search_web q m (Except.error e)).1 =
            "Error: The request timed out. Please try again." ∨
        (search_web q m (Except.error e)).1 =
            "Error searching with Perplexity: " ++ e) := by
  refine ⟨rfl, rfl, fun _ => rfl, fun _ => rfl, ?_⟩
  intro q m e
  simp only [search_web]
  split_ifs <;> simp

/-- C8 (amended): on a successful call with a non-empty citation list the
result is the completion content, the `Sources:` section enumerating the
citations from 1, and then the model note `"(Results from Perplexity m)"`;
with no citations (attribute absent or empty list) the `Sources:` section is
omitted but the model note still follows the content. -/
theorem search_web_success_formatting :
    (∀ (q m : String) (resp : PerplexityResponse) (c : String) (cs : List String),
        resp.citations = some (c :: cs) →
        (search_web q m (Except.ok resp)).1 =
          resp.content ++ "\n\nSources:\n" ++ formatCitations (c :: cs) 1 ++
            "\n\n(Results from Perplexity " ++
            (if valid_models.contains m then m else "sonar-pro") ++ ")") ∧
    (∀ (q m : String) (resp : PerplexityResponse),
        resp.citations = none ∨ resp.citations = some [] →
        (search_web q m (Except.ok resp)).1 =
          resp.content ++ "\n\n(Results from Perplexity " ++
            (if valid_models.contains m then m else "sonar-pro") ++ ")") := by
  constructor
  · intro q m resp c cs h
    simp only [search_web, h]
  · intro q m resp h
    rcases h with h | h
    · simp only [search_web, h]
    · simp only [search_web, h]

/-- Witness for C8 (amended) at concrete calls with and without citations. -/
theorem search_web_success_formatting_witness :
    (search_web "q" "bogus" (Except.ok ⟨"x", some ["a", "b"]⟩)).1 =
      "x\n\nSources:\n1. a\n2. b\n\n\n(Results from Perplexity sonar-pro)" ∧
    (search_web "q" "sonar-pro" (Except.ok ⟨"x", none⟩)).1 =
      "x\n\n(Results from Perplexity sonar-pro)" := by
  constructor
  · have h := search_web_success_formatting.1 "q" "bogus" ⟨"x", some ["a", "b"]⟩ "a" ["b"] rfl
    rw [h]; decide
  · have h := search_web_success_formatting.2 "q" "sonar-pro" ⟨"x", none⟩ (Or.inl rfl)
    rw [h]; decide

/-- Counterexample for C8 as stated: on a successful call with citations the
returned string is not the completion content followed only by the
`Sources:` section — the code always appends the model note after it. -/
theorem search_web_sources_only_claim_fails :
    (search_web "q" "sonar-pro" (Except.ok ⟨"x", some ["a"]⟩)).1 ≠
      "x" ++ "\n\nSources:\n" ++ formatCitations ["a"] 1 := by
  decide

/-- C9: an invalid model argument is replaced by `"sonar-pro"`, a valid one is
used unchanged, so the model used for the request is always in
`valid_models`. -/
theorem search_web_model_whitelist :
    (∀ (q m : String) (call : Except String PerplexityResponse),
        m ∉ valid_models → (search_web q m call).2 = "sonar-pro") ∧
    (∀ (q m : String) (call : Except String PerplexityResponse),
        m ∈ valid_models → (search_web q m call).2 = m) ∧
    (∀ (q m : String) (call : Except String PerplexityResponse),
        (search_web q m call).2 ∈ valid_models) := by
  refine ⟨?_, ?_, ?_⟩
  · intro q m call h
    cases call <;> simp [search_web, h]
  · intro q m call h
    cases call <;> simp [search_web, h]
  · intro q m call
    by_cases h : m ∈ valid_models
    · cases call <;> simp [search_web, h]
    · cases call <;> simp [search_web, h] <;> decide

/-- Witness for C9 at a model outside the whitelist and one inside it. -/
theorem search_web_model_whitelist_witness :
    (search_web "q" "gpt-4" (Except.ok ⟨"x", none⟩)).2 = "sonar-pro" ∧
    (search_web "q" "sonar-small" (Except.ok ⟨"x", none⟩)).2 = "sonar-small" ∧
    (search_web "q" "gpt-4" (Except.ok ⟨"x", none⟩)).2 ∈ valid_models := by
  refine ⟨?_, ?_, ?_⟩
  · exact search_web_model_whitelist.1 "q" "gpt-4" _ (by decide)
  · exact search_web_model_whitelist.2.1 "q" "sonar-small" _ (by decide)
  · exact search_web_model_whitelist.2.2 "q" "gpt-4" _

/-- C10: `main` only runs the owner and products lookups when the website
lookup returned something other than `"Unknown"`.  On `"Unknown"` it builds
the minimal all-`"Unknown"` mapping with `exact_match = false` and issues no
owner or products request; otherwise it records the three lookup results
with `exact_match = true`, and the owner and products lookups each issue at
least one request. -/
theorem main_flow_website_gating :
    (∀ (n : String) (w o p : Nat → String),
        (get_company_website w).1 = "Unknown" →
        mainFlow n w o p = (⟨n, "Unknown", "Unknown", "Unknown", false⟩, 0, 0)) ∧
    (∀ (n : String) (w o p : Nat → String),
        (get_company_website w).1 ≠ "Unknown" →
        mainFlow n w o p =
          (⟨n, (get_company_website w).1, (get_company_owner o).1,
              (get_company_products p).1, true⟩,
            (get_company_owner o).2, (get_company_products p).2) ∧
        1 ≤ (get_company_owner o).2 ∧ 1 ≤ (get_company_products p).2) := by
  constructor
  · intro n w o p h
    simp [mainFlow, h]
  · intro n w o p h
    refine ⟨by simp [mainFlow, h], ?_, ?_⟩
    · exact attemptLoop_issues_request o 2 0
    · exact attemptLoop_issues_request p 2 0

/-- Witness for C10: an all-`"Unknown"` website run builds the minimal
mapping without owner or products requests; a concrete website run records
all three lookup results. -/
theorem main_flow_website_gating_witness :
    mainFlow "Acme" (fun _ => "Unknown") (fun _ => "Bob") (fun _ => "widgets") =
      (⟨"Acme", "Unknown", "Unknown", "Unknown", false⟩, 0, 0) ∧
    mainFlow "Acme" (fun _ => "acme.com") (fun _ => "Bob") (fun _ => "widgets") =
      (⟨"Acme", "acme.com", "Bob", "widgets", true⟩, 1, 1) := by
  constructor
  · exact main_flow_website_gating.1 "Acme" _ _ _ (by decide)
  · have h := main_flow_website_gating.2 "Acme" (fun _ => "acme.com")
      (fun _ => "Bob") (fun _ => "widgets") (by decide)
    rw [h.1]; decide
